import Mathlib

/-!
Verification development for the MathMimic pipeline (repository
`Assignment_Duper`).  The definitions below are a shallow embedding of the
pipeline core: the Gemini service stage functions (`services/geminiService.ts`,
given here as `src/unnamed/part_001`) and the orchestrating retry loop
`handleProcess` of the App component (second half of `src/types.ts`).

Stateful JavaScript is embedded as explicit state passing: each Model Gateway
call is abstracted as an oracle giving that call's outcome, and the orchestrator
is a pure function from those oracles to the list of `ProcessingState` writes,
the published pages, the number of consumed attempts and the success flag.
-/

/-! ## JavaScript string and value primitives -/

/-- Boolean infix test on character lists. -/
def listIsInfixOf (needle : List Char) : List Char → Bool
  | [] => needle.isEmpty
  | c :: cs => needle.isPrefixOf (c :: cs) || listIsInfixOf needle cs

/-- JavaScript `haystack.includes(needle)` (substring test). -/
def jsIncludes (haystack needle : String) : Bool :=
  listIsInfixOf needle.data haystack.data

/-- JavaScript `s || dflt` for a string `s`: the empty string is falsy. -/
def strOr (s dflt : String) : String :=
  if s = "" then dflt else s

/-- JavaScript `t || dflt` where `t : Option String` models a possibly absent
(`undefined`) string field: both `undefined` and `""` are falsy. -/
def textOr (t : Option String) (dflt : String) : String :=
  match t with
  | none => dflt
  | some s => strOr s dflt

/-- A thrown JavaScript error, as observed by the pipeline's classifiers:
`message` is `error?.message || ''` and `serialized` is `JSON.stringify(error)`. -/
structure GwError where
  message : String
  serialized : String
  deriving DecidableEq, Repr

/-- Equality of call outcomes is decidable (needed to evaluate the embedding
on concrete runs). -/
instance {α β : Type} [DecidableEq α] [DecidableEq β] : DecidableEq (Except α β) :=
  fun a b =>
    match a, b with
    | Except.ok x, Except.ok y =>
      if h : x = y then isTrue (by rw [h]) else isFalse (by intro hh; cases hh; exact h rfl)
    | Except.error x, Except.error y =>
      if h : x = y then isTrue (by rw [h]) else isFalse (by intro hh; cases hh; exact h rfl)
    | Except.ok _, Except.error _ => isFalse (by intro hh; cases hh)
    | Except.error _, Except.ok _ => isFalse (by intro hh; cases hh)

/-- A plain `new Error(msg)` constructed by the pipeline itself:
`JSON.stringify` of a plain `Error` is `"{}"` because its fields are
non-enumerable. -/
def jsNewError (msg : String) : GwError :=
  ⟨msg, "\x7b\x7d"⟩

/-! ## JSON values

`JSON.parse` / `JSON.stringify` are modelled by an executable parser and
serializer over a small JSON value type.  Numbers keep their source lexeme:
no claim of this development inspects numeric normalization. -/

inductive Json where
  | null
  | bool (b : Bool)
  | num (lexeme : String)
  | str (s : String)
  | arr (elems : List Json)
  | obj (fields : List (String × Json))

/-- Whether a JSON value is an array (`Array.isArray` on a parsed value). -/
def Json.isArr : Json → Bool
  | Json.arr _ => true
  | _ => false

/-- First field of an object with the given key (JS property lookup on a
parsed JSON object); `none` when absent or when the value is not an object. -/
def jsonLookup (j : Json) (key : String) : Option Json :=
  match j with
  | Json.obj fields => fields.lookup key
  | _ => none

/-- JSON whitespace characters (RFC 8259: space, tab, line feed, carriage
return). -/
def isJsonWs (c : Char) : Bool :=
  c = ' ' || c = '\t' || c = '\n' || c = '\r'

def skipWs : List Char → List Char
  | [] => []
  | c :: cs => if isJsonWs c then skipWs cs else c :: cs

def hexVal (c : Char) : Option Nat :=
  if '0' ≤ c ∧ c ≤ '9' then some (c.toNat - '0'.toNat)
  else if 'a' ≤ c ∧ c ≤ 'f' then some (c.toNat - 'a'.toNat + 10)
  else if 'A' ≤ c ∧ c ≤ 'F' then some (c.toNat - 'A'.toNat + 10)
  else none

/-- Parse the body of a JSON string literal (the opening quote already
consumed), returning the decoded characters and the input after the closing
quote.  Raw control characters are rejected, as `JSON.parse` rejects them. -/
def parseStrBody : Nat → List Char → Option (List Char × List Char)
  | 0, _ => none
  | _ + 1, [] => none
  | fuel + 1, c :: cs =>
    if c = '"' then some ([], cs)
    else if c = '\\' then
      match cs with
      | [] => none
      | e :: cs2 =>
        let dec : Option (Char × List Char) :=
          if e = '"' then some ('"', cs2)
          else if e = '\\' then some ('\\', cs2)
          else if e = '/' then some ('/', cs2)
          else if e = 'b' then some (Char.ofNat 8, cs2)
          else if e = 'f' then some (Char.ofNat 12, cs2)
          else if e = 'n' then some ('\n', cs2)
          else if e = 'r' then some ('\r', cs2)
          else if e = 't' then some ('\t', cs2)
          else if e = 'u' then
            match cs2 with
            | h1 :: h2 :: h3 :: h4 :: cs3 =>
              match hexVal h1, hexVal h2, hexVal h3, hexVal h4 with
              | some a, some b, some c2, some d =>
                some (Char.ofNat (((a * 16 + b) * 16 + c2) * 16 + d), cs3)
              | _, _, _, _ => none
            | _ => none
          else none
        match dec with
        | none => none
        | some (ch, rest) =>
          match parseStrBody fuel rest with
          | some (s, rest2) => some (ch :: s, rest2)
          | none => none
    else if c.toNat < 32 then none
    else
      match parseStrBody fuel cs with
      | some (s, rest) => some (c :: s, rest)
      | none => none

/-- Parse a JSON number lexeme: `-? (0 | [1-9][0-9]*) (. [0-9]+)? ([eE][+-]?[0-9]+)?`. -/
def parseNumberLex (cs : List Char) : Option (List Char × List Char) :=
  let signAndRest : List Char × List Char :=
    match cs with
    | '-' :: rest => (['-'], rest)
    | _ => ([], cs)
  match signAndRest with
  | (sign, cs1) =>
    match cs1 with
    | [] => none
    | c :: rest =>
      if c.isDigit then
        let intPart : List Char × List Char :=
          if c = '0' then (['0'], rest)
          else (c :: rest.takeWhile Char.isDigit, rest.dropWhile Char.isDigit)
        match intPart with
        | (ip, cs2) =>
          let fracPart : Option (List Char × List Char) :=
            match cs2 with
            | '.' :: r =>
              let ds := r.takeWhile Char.isDigit
              if ds.isEmpty then none else some ('.' :: ds, r.dropWhile Char.isDigit)
            | _ => some ([], cs2)
          match fracPart with
          | none => none
          | some (fp, cs3) =>
            let expPart : Option (List Char × List Char) :=
              match cs3 with
              | e :: r =>
                if e = 'e' || e = 'E' then
                  let sr : List Char × List Char :=
                    match r with
                    | '+' :: r2 => (['+'], r2)
                    | '-' :: r2 => (['-'], r2)
                    | _ => ([], r)
                  match sr with
                  | (sg, r1) =>
                    let ds := r1.takeWhile Char.isDigit
                    if ds.isEmpty then none
                    else some (e :: sg ++ ds, r1.dropWhile Char.isDigit)
                else some ([], cs3)
              | [] => some ([], [])
            match expPart with
            | none => none
            | some (ep, cs4) => some (sign ++ ip ++ fp ++ ep, cs4)
      else none

mutual

/-- Parse one JSON value (no leading whitespace), returning it and the rest of
the input. -/
def parseVal : Nat → List Char → Option (Json × List Char)
  | 0, _ => none
  | fuel + 1, cs =>
    match cs with
    | [] => none
    | c :: rest =>
      if c = '"' then
        match parseStrBody (rest.length + 1) rest with
        | some (s, rest2) => some (Json.str (String.mk s), rest2)
        | none => none
      else if c = '[' then
        match skipWs rest with
        | ']' :: rest2 => some (Json.arr [], rest2)
        | rest1 =>
          match parseElems fuel rest1 with
          | some (es, rest2) => some (Json.arr es, rest2)
          | none => none
      else if c = '{' then
        match skipWs rest with
        | '}' :: rest2 => some (Json.obj [], rest2)
        | rest1 =>
          match parseFields fuel rest1 with
          | some (fs, rest2) => some (Json.obj fs, rest2)
          | none => none
      else if c = 't' then
        match cs with
        | 't' :: 'r' :: 'u' :: 'e' :: rest2 => some (Json.bool true, rest2)
        | _ => none
      else if c = 'f' then
        match cs with
        | 'f' :: 'a' :: 'l' :: 's' :: 'e' :: rest2 => some (Json.bool false, rest2)
        | _ => none
      else if c = 'n' then
        match cs with
        | 'n' :: 'u' :: 'l' :: 'l' :: rest2 => some (Json.null, rest2)
        | _ => none
      else if c = '-' || c.isDigit then
        match parseNumberLex cs with
        | some (lex, rest2) => some (Json.num (String.mk lex), rest2)
        | none => none
      else none

/-- Parse the elements of a non-empty JSON array, up to and including `]`. -/
def parseElems : Nat → List Char → Option (List Json × List Char)
  | 0, _ => none
  | fuel + 1, cs =>
    match parseVal fuel cs with
    | none => none
    | some (j, rest) =>
      match skipWs rest with
      | ',' :: rest2 =>
        match parseElems fuel (skipWs rest2) with
        | some (es, rest3) => some (j :: es, rest3)
        | none => none
      | ']' :: rest2 => some ([j], rest2)
      | _ => none

/-- Parse the fields of a non-empty JSON object, up to and including `}`. -/
def parseFields : Nat → List Char → Option (List (String × Json) × List Char)
  | 0, _ => none
  | fuel + 1, cs =>
    match cs with
    | '"' :: rest =>
      match parseStrBody (rest.length + 1) rest with
      | none => none
      | some (k, rest1) =>
        match skipWs rest1 with
        | ':' :: rest2 =>
          match parseVal fuel (skipWs rest2) with
          | none => none
          | some (j, rest3) =>
            match skipWs rest3 with
            | ',' :: rest4 =>
              match parseFields fuel (skipWs rest4) with
              | some (fs, rest5) => some ((String.mk k, j) :: fs, rest5)
              | none => none
            | '}' :: rest4 => some ([(String.mk k, j)], rest4)
            | _ => none
        | _ => none
    | _ => none

end

/-- `JSON.parse`: parse a complete JSON document; `none` models a thrown
`SyntaxError` (also raised when non-whitespace input remains after the
value). -/
def jsonParse (s : String) : Option Json :=
  match parseVal (2 * s.data.length + 2) (skipWs s.data) with
  | some (j, rest) => if (skipWs rest).isEmpty then some j else none
  | none => none

def hexDigitChar (n : Nat) : Char :=
  if n < 10 then Char.ofNat ('0'.toNat + n) else Char.ofNat ('a'.toNat + n - 10)

/-- Escaping of one character inside a `JSON.stringify` string literal. -/
def escapeJsonChar (c : Char) : List Char :=
  if c = '"' then ['\\', '"']
  else if c = '\\' then ['\\', '\\']
  else if c = '\n' then ['\\', 'n']
  else if c = '\t' then ['\\', 't']
  else if c = '\r' then ['\\', 'r']
  else if c = Char.ofNat 8 then ['\\', 'b']
  else if c = Char.ofNat 12 then ['\\', 'f']
  else if c.toNat < 32 then
    ['\\', 'u', '0', '0', hexDigitChar (c.toNat / 16), hexDigitChar (c.toNat % 16)]
  else [c]

def quoteJsonString (s : String) : String :=
  String.mk ('"' :: (s.data.map escapeJsonChar).flatten ++ ['"'])

mutual

/-- `JSON.stringify` (compact form, no indentation), as used by
`parseSolutionResponse` to force a non-array value into a page string. -/
def jsonStringify : Json → String
  | Json.null => "null"
  | Json.bool true => "true"
  | Json.bool false => "false"
  | Json.num lexeme => lexeme
  | Json.str s => quoteJsonString s
  | Json.arr es => "[" ++ stringifyElems es ++ "]"
  | Json.obj fs => "\x7b" ++ stringifyFields fs ++ "\x7d"

def stringifyElems : List Json → String
  | [] => ""
  | [j] => jsonStringify j
  | j :: j2 :: rest => jsonStringify j ++ "," ++ stringifyElems (j2 :: rest)

def stringifyFields : List (String × Json) → String
  | [] => ""
  | [(k, j)] => quoteJsonString k ++ ":" ++ jsonStringify j
  | (k, j) :: f2 :: rest =>
    quoteJsonString k ++ ":" ++ jsonStringify j ++ "," ++ stringifyFields (f2 :: rest)

end

/-! ## JavaScript string cleanup used by the service -/

/-- One pass of JavaScript `String.prototype.replace` with a global plain
pattern: scan left to right, replace non-overlapping occurrences.  The fuel is
the input length; each step consumes at least one character. -/
def replaceAllAux (pat rep : List Char) : Nat → List Char → List Char
  | _, [] => []
  | 0, s => s
  | fuel + 1, c :: cs =>
    if pat.isPrefixOf (c :: cs) then
      rep ++ replaceAllAux pat rep fuel ((c :: cs).drop pat.length)
    else c :: replaceAllAux pat rep fuel cs

def jsReplaceAll (s pat rep : String) : String :=
  String.mk (replaceAllAux pat.data rep.data s.data.length s.data)

/-- Whitespace stripped by `String.prototype.trim` (ASCII subset; the pipeline
only meets ASCII model output around the JSON payloads). -/
def isTrimWs (c : Char) : Bool :=
  c = ' ' || c = '\t' || c = '\n' || c = '\r' || c = Char.ofNat 11 || c = Char.ofNat 12

def jsTrim (s : String) : String :=
  String.mk (((s.data.dropWhile isTrimWs).reverse.dropWhile isTrimWs).reverse)

/-- The fence cleanup both interpreters inline:
`text.replace(/```json/g, '').replace(/```/g, '').trim()`. -/
def stripCodeFences (s : String) : String :=
  jsTrim (jsReplaceAll (jsReplaceAll s "```json" "") "```" "")

/-! ## Error classification -/

/-- `isPermissionError` from the Gemini service: string-based Access-Denied
classification over `error?.message || ''` and `JSON.stringify(error)`. -/
def isPermissionError (e : GwError) : Bool :=
  jsIncludes e.message "403" ||
  jsIncludes e.message "PERMISSION_DENIED" ||
  jsIncludes e.message "The caller does not have permission" ||
  jsIncludes e.serialized "403" ||
  jsIncludes e.serialized "PERMISSION_DENIED"

/-- The inline Access-Denied test of `handleProcess`'s catch block:
`errString.includes("403") || errString.includes("PERMISSION_DENIED") ||
errMessage.includes("403") || errMessage.includes("permission")`. -/
def appPermissionCheck (e : GwError) : Bool :=
  jsIncludes e.serialized "403" ||
  jsIncludes e.serialized "PERMISSION_DENIED" ||
  jsIncludes e.message "403" ||
  jsIncludes e.message "permission"

/-! ## Stage functions

Each Model Gateway call is abstracted as an oracle from the request actually
issued (model name plus the parameters the claims talk about) to that call's
outcome: `Except.ok` carries the relevant payload of the raw response,
`Except.error` a thrown error.  Stage functions also report the list of
requests they issued, in order, so that tier-fallback behaviour is
observable. -/

/-- Step 1, `transcribeMathProblem`: a single baseline-tier call; a successful
response yields `response.text || "Could not read problem."`. -/
def transcribeMathProblem (call : Except GwError (Option String)) : Except GwError String :=
  match call with
  | Except.error e => Except.error e
  | Except.ok t => Except.ok (textOr t "Could not read problem.")

/-- The element-wise reading of a parsed JSON array as the `string[]` the
source declares: string elements are taken as such; a non-string element (which
the untyped source would pass through unchecked, outside the model's response
contract) is represented by its JSON serialization. -/
def pageString : Json → String
  | Json.str s => s
  | j => jsonStringify j

/-- `parseSolutionResponse`: strip fence markers, `JSON.parse`; an array is
returned as the page list, a parsed non-array becomes
`[JSON.stringify(result)]`, and a parse failure falls back to
`[response.text || ""]`. -/
def parseSolutionResponse (text? : Option String) : List String :=
  match jsonParse (stripCodeFences (textOr text? "[]")) with
  | some (Json.arr es) => es.map pageString
  | some j => [jsonStringify j]
  | none => [textOr text? ""]

/-- A Solve-stage request: model tier and thinking budget
(`thinkingConfig.thinkingBudget`). -/
structure SolveRequest where
  model : String
  thinkingBudget : Nat
  deriving DecidableEq, Repr

def solveReqPrimary : SolveRequest := ⟨"gemini-3-pro-preview", 2048⟩

def solveReqFallback : SolveRequest := ⟨"gemini-2.5-flash", 1024⟩

/-- The catch block of `solveMathProblem`: the fallback-tier call and its
interpretation; a failure of the fallback call itself propagates. -/
def solveFallbackOutcome (gw : SolveRequest → Except GwError (Option String)) :
    Except GwError (List String) :=
  match gw solveReqFallback with
  | Except.ok response => Except.ok (parseSolutionResponse response)
  | Except.error e2 => Except.error e2

/-- Step 2, `solveMathProblem`: primary tier first; on an Access-Denied
classified failure, one synchronous fallback-tier retry; any other failure
rethrown. -/
def solveMathProblem (gw : SolveRequest → Except GwError (Option String)) :
    Except GwError (List String) × List SolveRequest :=
  match gw solveReqPrimary with
  | Except.ok response => (Except.ok (parseSolutionResponse response), [solveReqPrimary])
  | Except.error e =>
    if isPermissionError e then
      (solveFallbackOutcome gw, [solveReqPrimary, solveReqFallback])
    else (Except.error e, [solveReqPrimary])

/-- A RenderPage-stage request: model tier and the optional
`imageConfig.imageSize` high-resolution flag (both tiers also pass
`aspectRatio: "3:4"`, which no claim distinguishes). -/
structure RenderRequest where
  model : String
  imageSize : Option String
  deriving DecidableEq, Repr

def renderReqPrimary : RenderRequest := ⟨"gemini-3-pro-image-preview", some "2K"⟩

def renderReqFallback : RenderRequest := ⟨"gemini-2.5-flash-image", none⟩

/-- `extractImage`: scan the response candidate's parts for the first inline
image payload; a part is modelled by its optional `inlineData.data`. -/
def extractImage (parts : List (Option String)) : Except GwError String :=
  match parts.findSome? id with
  | some data => Except.ok ("data:image/png;base64," ++ data)
  | none => Except.error (jsNewError "No image generated in response")

/-- The catch block of `generateHandwrittenPage`: fallback-tier call followed
by image extraction; failures of either propagate. -/
def renderFallbackOutcome (gw : RenderRequest → Except GwError (List (Option String))) :
    Except GwError String :=
  match gw renderReqFallback with
  | Except.ok parts => extractImage parts
  | Except.error e2 => Except.error e2

/-- Step 3, `generateHandwrittenPage`: primary tier plus image extraction in
the `try`; the catch falls back to the reduced-parameter tier exactly when the
caught error is Access-Denied classified, and rethrows otherwise. -/
def generateHandwrittenPage (gw : RenderRequest → Except GwError (List (Option String))) :
    Except GwError String × List RenderRequest :=
  match gw renderReqPrimary with
  | Except.ok parts =>
    match extractImage parts with
    | Except.ok url => (Except.ok url, [renderReqPrimary])
    | Except.error e =>
      if isPermissionError e then
        (renderFallbackOutcome gw, [renderReqPrimary, renderReqFallback])
      else (Except.error e, [renderReqPrimary])
  | Except.error e =>
    if isPermissionError e then
      (renderFallbackOutcome gw, [renderReqPrimary, renderReqFallback])
    else (Except.error e, [renderReqPrimary])

/-- The validation verdict `{ valid, reason }`. -/
structure Verdict where
  valid : Bool
  reason : String
  deriving DecidableEq, Repr

/-- Step 4, `validateSolution`: one baseline-tier call whose whole body sits in
a `try`; any failure (gateway error or JSON parse error) is converted into
`{valid: true, reason: "Validation bypassed due to system error"}`.  On a
parsed verdict the source computes `json.valid === true` and
`json.reason || "Unknown"`; `reason` is typed `string`, so a non-string
`reason` field is read as absent. -/
def validateSolution (call : Except GwError (Option String)) : Verdict :=
  match call with
  | Except.error _ => ⟨true, "Validation bypassed due to system error"⟩
  | Except.ok t =>
    match jsonParse (stripCodeFences (textOr t "\x7b\x7d")) with
    | none => ⟨true, "Validation bypassed due to system error"⟩
    | some json =>
      ⟨(match jsonLookup json "valid" with
         | some (Json.bool true) => true
         | _ => false),
       (match jsonLookup json "reason" with
         | some (Json.str s) => strOr s "Unknown"
         | _ => "Unknown")⟩

/-! ## Orchestrator state -/

inductive ProcessingStep where
  | IDLE
  | ANALYZING
  | SOLVING
  | GENERATING_PAGES
  | VALIDATING
  | COMPLETED
  | ERROR
  deriving DecidableEq, Repr

/-- The externally observable `{step, message, progress}` triple; `progress`
is kept as an exact rational (the source's `40 + ((i / totalSteps) * 40)`
is evaluated here in exact arithmetic). -/
structure ProcessingState where
  step : ProcessingStep
  message : String
  progress : Rat
  deriving DecidableEq, Repr

structure GeneratedPage where
  imageUrl : String
  pageNumber : Nat
  deriving DecidableEq, Repr

/-- One attempt's worth of Model Gateway outcomes: the responses the backend
would give to each call the attempt can issue (render calls are indexed by the
0-based page index). -/
structure AttemptEnv where
  transcribe : Except GwError (Option String)
  solvePrimary : Except GwError (Option String)
  solveFallback : Except GwError (Option String)
  renderPrimary : Nat → Except GwError (List (Option String))
  renderFallback : Nat → Except GwError (List (Option String))
  validate : Except GwError (Option String)

/-- The Solve-stage oracle induced by an attempt environment: the response is
selected by the tier actually requested. -/
def solveGw (e : AttemptEnv) : SolveRequest → Except GwError (Option String) :=
  fun r => if r.model = "gemini-3-pro-preview" then e.solvePrimary else e.solveFallback

/-- The RenderPage-stage oracle for page index `i`. -/
def renderGw (e : AttemptEnv) (i : Nat) :
    RenderRequest → Except GwError (List (Option String)) :=
  fun r => if r.model = "gemini-3-pro-image-preview" then e.renderPrimary i else e.renderFallback i

/-! The successive `setProcessingState` payloads of `handleProcess`. -/

def analyzingState (a : Nat) : ProcessingState :=
  ⟨ProcessingStep.ANALYZING, "Reading problem (Attempt " ++ toString a ++ ")...", 10⟩

def solvingState : ProcessingState :=
  ⟨ProcessingStep.SOLVING, "Solving problem step-by-step...", 30⟩

def generatingState (i T : Nat) : ProcessingState :=
  ⟨ProcessingStep.GENERATING_PAGES,
   "Writing page " ++ toString (i + 1) ++ "/" ++ toString T ++ "...",
   40 + ((i : Rat) / (T : Rat)) * 40⟩

def validatingState : ProcessingState :=
  ⟨ProcessingStep.VALIDATING, "Verifying solution quality...", 90⟩

def completedState : ProcessingState :=
  ⟨ProcessingStep.COMPLETED, "Sequence Complete. Output Verified.", 100⟩

def accessDeniedState : ProcessingState :=
  ⟨ProcessingStep.ERROR, "ACCESS DENIED: API Key invalid.", 0⟩

def sysFailureState (e : GwError) : ProcessingState :=
  ⟨ProcessingStep.ERROR, "SYSTEM FAILURE: " ++ strOr e.message "Unknown error.", 0⟩

/-- The page-generation loop of `handleProcess` over the listed 0-based page
indices (`List.range T` in the orchestrator): for each index, write the
GeneratingPages state, render, and accumulate `{imageUrl, pageNumber: i+1}`;
a render failure aborts the loop, keeping the states written so far. -/
def renderPages (e : AttemptEnv) (T : Nat) :
    List Nat → List ProcessingState × Except GwError (List GeneratedPage)
  | [] => ([], Except.ok [])
  | i :: rest =>
    match (generateHandwrittenPage (renderGw e i)).1 with
    | Except.error err => ([generatingState i T], Except.error err)
    | Except.ok url =>
      match renderPages e T rest with
      | (sts, Except.error err) => (generatingState i T :: sts, Except.error err)
      | (sts, Except.ok pages) =>
        (generatingState i T :: sts, Except.ok (⟨url, i + 1⟩ :: pages))

/-- How one pass of the `try` block of `handleProcess` ends. -/
inductive TryOutcome where
  | success (pages : List GeneratedPage)
  | retryEmpty
  | retryInvalid
  | thrown (e : GwError)
  deriving DecidableEq

/-- One pass of the `try` block of `handleProcess` on attempt `a` (`isLast`
is `attempts === MAX_ATTEMPTS`): transcribe, solve, render every page, then
validate.  Returns the `ProcessingState` writes of the pass, in order, and the
pass outcome. -/
def tryBody (e : AttemptEnv) (a : Nat) (isLast : Bool) :
    List ProcessingState × TryOutcome :=
  match transcribeMathProblem e.transcribe with
  | Except.error err => ([analyzingState a], TryOutcome.thrown err)
  | Except.ok _problemText =>
    match (solveMathProblem (solveGw e)).1 with
    | Except.error err => ([analyzingState a, solvingState], TryOutcome.thrown err)
    | Except.ok steps =>
      if steps.length = 0 then
        if isLast then
          ([analyzingState a, solvingState],
           TryOutcome.thrown (jsNewError "Could not solve the problem."))
        else ([analyzingState a, solvingState], TryOutcome.retryEmpty)
      else
        match renderPages e steps.length (List.range steps.length) with
        | (rsts, Except.error err) =>
          (analyzingState a :: solvingState :: rsts, TryOutcome.thrown err)
        | (rsts, Except.ok pages) =>
          let v := validateSolution e.validate
          if v.valid then
            (analyzingState a :: solvingState :: rsts ++ [validatingState, completedState],
             TryOutcome.success pages)
          else if isLast then
            (analyzingState a :: solvingState :: rsts ++ [validatingState],
             TryOutcome.thrown
               (jsNewError ("Validation failed: " ++ strOr v.reason "Output illegible")))
          else
            (analyzingState a :: solvingState :: rsts ++ [validatingState],
             TryOutcome.retryInvalid)

/-- The observable outcome of a whole `handleProcess` run: every
`setProcessingState` write in order, the finally published `generatedPages`,
the number of consumed attempts and the success flag. -/
structure RunResult where
  states : List ProcessingState
  pages : List GeneratedPage
  attempts : Nat
  success : Bool
  deriving DecidableEq

def MAX_ATTEMPTS : Nat := 3

/-- The `while (attempts < MAX_ATTEMPTS && !success)` loop of `handleProcess`.
`done` is the current value of `attempts`; `fuel` bounds the remaining
iterations (the driver passes `MAX_ATTEMPTS`, which the loop condition can
never exceed).  The catch block aborts the run on an Access-Denied classified
error, reports `SYSTEM FAILURE` when attempts are exhausted, and otherwise
swallows the error and retries. -/
def runLoop (env : Nat → AttemptEnv) : Nat → Nat → RunResult
  | 0, done => ⟨[], [], done, false⟩
  | fuel + 1, done =>
    if done < MAX_ATTEMPTS then
      let a := done + 1
      match tryBody (env a) a (a = MAX_ATTEMPTS) with
      | (sts, TryOutcome.success pages) => ⟨sts, pages, a, true⟩
      | (sts, TryOutcome.retryEmpty) =>
        let r := runLoop env fuel a
        ⟨sts ++ r.states, r.pages, r.attempts, r.success⟩
      | (sts, TryOutcome.retryInvalid) =>
        let r := runLoop env fuel a
        ⟨sts ++ r.states, r.pages, r.attempts, r.success⟩
      | (sts, TryOutcome.thrown err) =>
        if appPermissionCheck err then
          ⟨sts ++ [accessDeniedState], [], a, false⟩
        else if a = MAX_ATTEMPTS then
          ⟨sts ++ [sysFailureState err], [], a, false⟩
        else
          let r := runLoop env fuel a
          ⟨sts ++ r.states, r.pages, r.attempts, r.success⟩
    else ⟨[], [], done, false⟩

/-- `handleProcess`: clear previous pages, then run the attempt loop. -/
def handleProcess (env : Nat → AttemptEnv) : RunResult :=
  runLoop env MAX_ATTEMPTS 0

/-- An attempt whose first three stages all succeed, with the solver's page
list, the rendered pages and the GeneratingPages state writes. -/
def stageOutcomesOk (e : AttemptEnv) (steps : List String) (pages : List GeneratedPage)
    (rsts : List ProcessingState) : Prop :=
  (∃ pt, transcribeMathProblem e.transcribe = Except.ok pt) ∧
  (solveMathProblem (solveGw e)).1 = Except.ok steps ∧
  steps ≠ [] ∧
  renderPages e steps.length (List.range steps.length) = (rsts, Except.ok pages)

/-! ## Concrete runs used as evaluation witnesses -/

/-- An error whose message and serialized form carry Access-Denied markers. -/
def permErr403 : GwError :=
  ⟨"got 403 from backend", "\x7b\"code\":403,\"status\":\"PERMISSION_DENIED\"\x7d"⟩

/-- An attempt whose four stages all succeed, solving into two pages. -/
def envOkW : AttemptEnv :=
  { transcribe := Except.ok (some "1+1")
    solvePrimary := Except.ok (some "[\"a\",\"b\"]")
    solveFallback := Except.ok none
    renderPrimary := fun _ => Except.ok [some "P"]
    renderFallback := fun _ => Except.ok [none]
    validate := Except.ok (some "\x7b\"valid\": true\x7d") }

/-- A run whose Validate gateway call fails with an Access-Denied error. -/
def envC1cex : Nat → AttemptEnv := fun _ =>
  { envOkW with validate := Except.error permErr403 }

/-- A run whose Transcribe call fails with an Access-Denied error. -/
def envC1wit : Nat → AttemptEnv := fun _ =>
  { envOkW with transcribe := Except.error permErr403 }

/-- The two pages `envOkW` renders. -/
def pagesW : List GeneratedPage :=
  [⟨"data:image/png;base64,P", 1⟩, ⟨"data:image/png;base64,P", 2⟩]

/-- A run whose Solve stage parses to the empty page list on every attempt. -/
def envEmptyW : AttemptEnv := { envOkW with solvePrimary := Except.ok (some "[]") }

/-- An attempt whose Validate verdict is `valid = false`. -/
def envInvalidW : AttemptEnv :=
  { envOkW with validate := Except.ok (some "\x7b\"valid\": false, \"reason\": \"blurry\"\x7d") }

/-- A successful attempt rendering distinguishable third-attempt pages. -/
def envC7ok : AttemptEnv := { envOkW with renderPrimary := fun _ => Except.ok [some "THIRD"] }

/-- A run failing validation on attempts 1 and 2 and passing on attempt 3. -/
def envC7run : Nat → AttemptEnv := fun a => if a = 3 then envC7ok else envInvalidW

/-- The pages rendered by attempt 3 of `envC7run`. -/
def pagesThird : List GeneratedPage :=
  [⟨"data:image/png;base64,THIRD", 1⟩, ⟨"data:image/png;base64,THIRD", 2⟩]

/-- A Solve oracle whose primary tier is denied and whose fallback succeeds. -/
def gwSolveCex : SolveRequest → Except GwError (Option String) := fun r =>
  if r.model = "gemini-3-pro-preview" then Except.error permErr403
  else Except.ok (some "[\"fb page\"]")

/-- A RenderPage oracle whose primary tier is denied and whose fallback
succeeds. -/
def gwRenderCex : RenderRequest → Except GwError (List (Option String)) := fun r =>
  if r.model = "gemini-3-pro-image-preview" then Except.error permErr403
  else Except.ok [some "IMG"]

/-! ## Supporting lemmas -/

/-- When every render call of the page loop succeeds, the loop writes exactly
one GeneratingPages state per index and numbers the pages `i + 1` in index
order. -/
theorem renderPages_ok (e : AttemptEnv) (T : Nat) :
    ∀ is sts pages, renderPages e T is = (sts, Except.ok pages) →
      sts = is.map (fun i => generatingState i T) ∧
      pages.map (fun p => p.pageNumber) = is.map (fun i => i + 1) ∧
      pages.length = is.length := by
  intro is
  induction is with
  | nil =>
    intro sts pages h
    simp only [renderPages, Prod.mk.injEq] at h
    obtain ⟨h1, h2⟩ := h
    subst h1
    cases h2
    simp
  | cons i rest ih =>
    intro sts pages h
    simp only [renderPages] at h
    cases hg : (generateHandwrittenPage (renderGw e i)).1 with
    | error err => rw [hg] at h; simp at h
    | ok url =>
      rw [hg] at h
      cases hr : renderPages e T rest with
      | mk sts' res =>
        rw [hr] at h
        cases res with
        | error err => simp at h
        | ok pages' =>
          simp only [Prod.mk.injEq] at h
          obtain ⟨h1, h2⟩ := h
          subst h1
          cases h2
          obtain ⟨ih1, ih2, ih3⟩ := ih sts' pages' hr
          subst ih1
          simp [ih2, ih3]

theorem tryBody_of_success (e : AttemptEnv) (a : Nat) (isLast : Bool)
    (steps : List String) (pages : List GeneratedPage) (rsts : List ProcessingState)
    (h : stageOutcomesOk e steps pages rsts)
    (hv : (validateSolution e.validate).valid = true) :
    tryBody e a isLast =
      (analyzingState a :: solvingState :: rsts ++ [validatingState, completedState],
       TryOutcome.success pages) := by
  obtain ⟨⟨pt, hpt⟩, hsolve, hne, hrender⟩ := h
  have hlen : ¬ steps.length = 0 := by simpa using hne
  simp [tryBody, hpt, hsolve, hrender, hlen, hv]

theorem tryBody_of_invalid (e : AttemptEnv) (a : Nat)
    (steps : List String) (pages : List GeneratedPage) (rsts : List ProcessingState)
    (h : stageOutcomesOk e steps pages rsts)
    (hv : (validateSolution e.validate).valid = false) :
    tryBody e a false =
      (analyzingState a :: solvingState :: rsts ++ [validatingState],
       TryOutcome.retryInvalid) := by
  obtain ⟨⟨pt, hpt⟩, hsolve, hne, hrender⟩ := h
  have hlen : ¬ steps.length = 0 := by simpa using hne
  simp [tryBody, hpt, hsolve, hrender, hlen, hv]

theorem tryBody_of_empty (e : AttemptEnv) (a : Nat)
    (hpt : ∃ pt, transcribeMathProblem e.transcribe = Except.ok pt)
    (hs : (solveMathProblem (solveGw e)).1 = Except.ok []) :
    tryBody e a false = ([analyzingState a, solvingState], TryOutcome.retryEmpty) := by
  obtain ⟨pt, hpt⟩ := hpt
  simp [tryBody, hpt, hs]

theorem tryBody_of_empty_last (e : AttemptEnv) (a : Nat)
    (hpt : ∃ pt, transcribeMathProblem e.transcribe = Except.ok pt)
    (hs : (solveMathProblem (solveGw e)).1 = Except.ok []) :
    tryBody e a true =
      ([analyzingState a, solvingState],
       TryOutcome.thrown (jsNewError "Could not solve the problem.")) := by
  obtain ⟨pt, hpt⟩ := hpt
  simp [tryBody, hpt, hs]

theorem runLoop_step_success (env : Nat → AttemptEnv) (fuel done : Nat)
    (sts : List ProcessingState) (pages : List GeneratedPage)
    (hlt : done < MAX_ATTEMPTS)
    (ht : tryBody (env (done + 1)) (done + 1) (decide (done + 1 = MAX_ATTEMPTS)) =
      (sts, TryOutcome.success pages)) :
    runLoop env (fuel + 1) done = ⟨sts, pages, done + 1, true⟩ := by
  simp only [runLoop, hlt, if_true, ht]

theorem runLoop_step_retryEmpty (env : Nat → AttemptEnv) (fuel done : Nat)
    (sts : List ProcessingState)
    (hlt : done < MAX_ATTEMPTS)
    (ht : tryBody (env (done + 1)) (done + 1) (decide (done + 1 = MAX_ATTEMPTS)) =
      (sts, TryOutcome.retryEmpty)) :
    runLoop env (fuel + 1) done =
      ⟨sts ++ (runLoop env fuel (done + 1)).states, (runLoop env fuel (done + 1)).pages,
       (runLoop env fuel (done + 1)).attempts, (runLoop env fuel (done + 1)).success⟩ := by
  simp only [runLoop, hlt, if_true, ht]

theorem runLoop_step_retryInvalid (env : Nat → AttemptEnv) (fuel done : Nat)
    (sts : List ProcessingState)
    (hlt : done < MAX_ATTEMPTS)
    (ht : tryBody (env (done + 1)) (done + 1) (decide (done + 1 = MAX_ATTEMPTS)) =
      (sts, TryOutcome.retryInvalid)) :
    runLoop env (fuel + 1) done =
      ⟨sts ++ (runLoop env fuel (done + 1)).states, (runLoop env fuel (done + 1)).pages,
       (runLoop env fuel (done + 1)).attempts, (runLoop env fuel (done + 1)).success⟩ := by
  simp only [runLoop, hlt, if_true, ht]

theorem runLoop_step_thrown_perm (env : Nat → AttemptEnv) (fuel done : Nat)
    (sts : List ProcessingState) (err : GwError)
    (hlt : done < MAX_ATTEMPTS)
    (ht : tryBody (env (done + 1)) (done + 1) (decide (done + 1 = MAX_ATTEMPTS)) =
      (sts, TryOutcome.thrown err))
    (hperm : appPermissionCheck err = true) :
    runLoop env (fuel + 1) done = ⟨sts ++ [accessDeniedState], [], done + 1, false⟩ := by
  simp only [runLoop, hlt, if_true, ht, hperm]

theorem runLoop_step_thrown_last (env : Nat → AttemptEnv) (fuel done : Nat)
    (sts : List ProcessingState) (err : GwError)
    (hlt : done < MAX_ATTEMPTS)
    (ht : tryBody (env (done + 1)) (done + 1) (decide (done + 1 = MAX_ATTEMPTS)) =
      (sts, TryOutcome.thrown err))
    (hperm : appPermissionCheck err = false)
    (hlast : done + 1 = MAX_ATTEMPTS) :
    runLoop env (fuel + 1) done = ⟨sts ++ [sysFailureState err], [], done + 1, false⟩ := by
  simp only [runLoop, hlt, if_true]
  rw [ht]
  simp [hperm, hlast]

/-- The progress values of one successful attempt, in write order, form a
non-decreasing sequence. -/
theorem progress_sorted (T : Nat) (hT : 0 < T) :
    (((10:ℚ) :: 30 :: ((List.range T).map (fun i : Nat => (40:ℚ) + ((i:ℚ)/(T:ℚ)) * 40))) ++
      [90, 100]).Pairwise (· ≤ ·) := by
  have hTQ : (0:ℚ) < (T:ℚ) := by exact_mod_cast hT
  have hlb : ∀ i : Nat, (40:ℚ) ≤ 40 + ((i:ℚ)/(T:ℚ)) * 40 := by
    intro i
    have h0 : (0:ℚ) ≤ (i:ℚ)/(T:ℚ) := div_nonneg (by positivity) (le_of_lt hTQ)
    nlinarith
  have hub : ∀ i : Nat, i < T → 40 + ((i:ℚ)/(T:ℚ)) * 40 ≤ 80 := by
    intro i hi
    have h1 : (i:ℚ)/(T:ℚ) ≤ 1 := by
      rw [div_le_one hTQ]
      exact_mod_cast le_of_lt hi
    nlinarith
  have hmono : ∀ i j : Nat, i ≤ j →
      40 + ((i:ℚ)/(T:ℚ)) * 40 ≤ 40 + ((j:ℚ)/(T:ℚ)) * 40 := by
    intro i j hij
    have hd : (i:ℚ)/(T:ℚ) ≤ (j:ℚ)/(T:ℚ) := by gcongr
    nlinarith
  show List.Pairwise (· ≤ ·)
    ((10:ℚ) :: (30 :: (((List.range T).map (fun i : Nat => (40:ℚ) + ((i:ℚ)/(T:ℚ)) * 40)) ++
      [90, 100])))
  rw [List.pairwise_cons]
  refine ⟨?_, ?_⟩
  · intro b hb
    simp at hb
    rcases hb with rfl | ⟨i, hi, rfl⟩ | rfl | rfl
    · norm_num
    · have := hlb i; linarith
    · norm_num
    · norm_num
  · rw [List.pairwise_cons]
    refine ⟨?_, ?_⟩
    · intro b hb
      simp at hb
      rcases hb with ⟨i, hi, rfl⟩ | rfl | rfl
      · have := hlb i; linarith
      · norm_num
      · norm_num
    · rw [List.pairwise_append]
      refine ⟨?_, ?_, ?_⟩
      · rw [List.pairwise_map]
        exact (List.pairwise_lt_range T).imp (fun h => hmono _ _ (le_of_lt h))
      · norm_num [List.pairwise_cons]
      · intro a ha b hb
        simp only [List.mem_map, List.mem_range] at ha
        obtain ⟨i, hi, rfl⟩ := ha
        have := hub i hi
        simp at hb
        rcases hb with rfl | rfl
        · linarith
        · linarith

/-- C8: within every single successful attempt, the sequence of
`ProcessingState.progress` values written by the orchestrator (10, 30, then
`40 + (i/T)*40` for each page index `i` of `T` pages, then 90, then 100) is
monotonically non-decreasing; and every attempt (in particular each new
attempt) starts with the low progress value 10. -/
theorem C8_progress_monotone (e : AttemptEnv) (a : Nat) (isLast : Bool)
    (sts : List ProcessingState) (out : TryOutcome)
    (h : tryBody e a isLast = (sts, out)) :
    (sts.map (fun s => s.progress)).head? = some 10 ∧
    ∀ pages, out = TryOutcome.success pages →
      (sts.map (fun s => s.progress)).Pairwise (· ≤ ·) := by
  simp only [tryBody] at h
  cases h1 : transcribeMathProblem e.transcribe with
  | error err =>
    rw [h1] at h
    simp only [Prod.mk.injEq] at h
    obtain ⟨hsts, hout⟩ := h
    subst hsts; subst hout
    refine ⟨by simp [analyzingState], ?_⟩
    intro pages hp
    simp at hp
  | ok pt =>
    rw [h1] at h
    cases h2 : (solveMathProblem (solveGw e)).1 with
    | error err =>
      rw [h2] at h
      simp only [Prod.mk.injEq] at h
      obtain ⟨hsts, hout⟩ := h
      subst hsts; subst hout
      refine ⟨by simp [analyzingState], ?_⟩
      intro pages hp
      simp at hp
    | ok steps =>
      rw [h2] at h
      dsimp only at h
      by_cases hlen : steps.length = 0
      · rw [if_pos hlen] at h
        cases isLast with
        | true =>
          simp only [eq_self_iff_true, if_true, Prod.mk.injEq] at h
          obtain ⟨hsts, hout⟩ := h
          subst hsts; subst hout
          refine ⟨by simp [analyzingState], ?_⟩
          intro pages hp
          simp at hp
        | false =>
          simp only [Bool.false_eq_true, if_false, Prod.mk.injEq] at h
          obtain ⟨hsts, hout⟩ := h
          subst hsts; subst hout
          refine ⟨by simp [analyzingState], ?_⟩
          intro pages hp
          simp at hp
      · rw [if_neg hlen] at h
        cases hr : renderPages e steps.length (List.range steps.length) with
        | mk rsts res =>
          rw [hr] at h
          cases res with
          | error err =>
            dsimp only at h
            simp only [Prod.mk.injEq] at h
            obtain ⟨hsts, hout⟩ := h
            subst hsts; subst hout
            refine ⟨by simp [analyzingState], ?_⟩
            intro pages hp
            simp at hp
          | ok rpages =>
            dsimp only at h
            obtain ⟨hrs, hrp, hrl⟩ :=
              renderPages_ok e steps.length (List.range steps.length) rsts rpages hr
            cases hv : (validateSolution e.validate).valid with
            | true =>
              simp only [hv, eq_self_iff_true, if_true, Prod.mk.injEq] at h
              obtain ⟨hsts, hout⟩ := h
              subst hsts; subst hout
              constructor
              · simp [analyzingState]
              · intro pages hp
                subst hrs
                have hT : 0 < steps.length := Nat.pos_of_ne_zero hlen
                simpa [analyzingState, solvingState, validatingState, completedState,
                  generatingState, List.map_map, Function.comp] using
                  progress_sorted steps.length hT
            | false =>
              simp only [hv, Bool.false_eq_true, if_false] at h
              cases isLast with
              | true =>
                simp only [eq_self_iff_true, if_true, Prod.mk.injEq] at h
                obtain ⟨hsts, hout⟩ := h
                subst hsts; subst hout
                refine ⟨by simp [analyzingState], ?_⟩
                intro pages hp
                simp at hp
              | false =>
                simp only [Bool.false_eq_true, if_false, Prod.mk.injEq] at h
                obtain ⟨hsts, hout⟩ := h
                subst hsts; subst hout
                refine ⟨by simp [analyzingState], ?_⟩
                intro pages hp
                simp at hp

theorem range_map_succ_eq (T : Nat) :
    (List.range T).map (fun i => i + 1) = List.range' 1 T := by
  rw [List.range'_eq_map_range]
  simp [Nat.add_comm]

/-- C9: for every attempt whose SolutionStep sequence has length 4 and whose
page-generation loop completes, the progress values written during the
GeneratingPages stage are, in order, exactly 40, 50, 60, 70 — that is,
`40 + (i/4)*40` for `i = 0, 1, 2, 3` under exact rational arithmetic. -/
theorem C9_progress_values_four_pages (e : AttemptEnv)
    (sts : List ProcessingState) (pages : List GeneratedPage)
    (h : renderPages e 4 (List.range 4) = (sts, Except.ok pages)) :
    sts.map (fun s => s.progress) = [40, 50, 60, 70] := by
  obtain ⟨hs, hn, hl⟩ := renderPages_ok e 4 (List.range 4) sts pages h
  subst hs
  norm_num [show List.range 4 = [0, 1, 2, 3] from rfl, generatingState]

/-- C3: for every run in which all four stages succeed and Validate returns
`valid = true` on attempt 1, the published page list has length equal to the
SolutionStep list length and its `pageNumber` fields are exactly `1..N` in
list order, assigned by position in the SolutionStep sequence. -/
theorem C3_success_pages_numbering (env : Nat → AttemptEnv)
    (steps : List String) (pages : List GeneratedPage) (rsts : List ProcessingState)
    (h : stageOutcomesOk (env 1) steps pages rsts)
    (hv : (validateSolution (env 1).validate).valid = true) :
    (handleProcess env).success = true ∧
    (handleProcess env).attempts = 1 ∧
    (handleProcess env).pages.length = steps.length ∧
    (handleProcess env).pages.map (fun p => p.pageNumber) = List.range' 1 steps.length := by
  have ht : tryBody (env 1) 1 (decide (1 = MAX_ATTEMPTS)) =
      (analyzingState 1 :: solvingState :: rsts ++ [validatingState, completedState],
       TryOutcome.success pages) :=
    tryBody_of_success (env 1) 1 _ steps pages rsts h hv
  have key : handleProcess env =
      ⟨analyzingState 1 :: solvingState :: rsts ++ [validatingState, completedState],
       pages, 1, true⟩ :=
    runLoop_step_success env 2 0 _ pages (by norm_num [MAX_ATTEMPTS]) ht
  obtain ⟨hpn, hpl⟩ := (renderPages_ok (env 1) steps.length (List.range steps.length)
    rsts pages h.2.2.2).2
  rw [key]
  refine ⟨rfl, rfl, ?_, ?_⟩
  · simpa using hpl
  · rw [hpn, range_map_succ_eq]

/-- C6: for every run in which Transcribe succeeds and Solve returns an empty
SolutionStep sequence on every attempt up to `MAX_ATTEMPTS = 3`, each of the
first two attempts retries (the run consumes all 3 attempts, writing only
Analyzing/Solving states), and the run ends unsuccessfully in the Error step
carrying the Unsolvable message `SYSTEM FAILURE: Could not solve the
problem.`. -/
theorem C6_empty_solution_exhaustion (env : Nat → AttemptEnv)
    (h : ∀ a, 1 ≤ a → a ≤ 3 →
      (∃ pt, transcribeMathProblem (env a).transcribe = Except.ok pt) ∧
      (solveMathProblem (solveGw (env a))).1 = Except.ok []) :
    (handleProcess env).success = false ∧
    (handleProcess env).attempts = 3 ∧
    (handleProcess env).states.map (fun s => s.step) =
      [ProcessingStep.ANALYZING, ProcessingStep.SOLVING,
       ProcessingStep.ANALYZING, ProcessingStep.SOLVING,
       ProcessingStep.ANALYZING, ProcessingStep.SOLVING, ProcessingStep.ERROR] ∧
    (handleProcess env).states.getLast? =
      some (sysFailureState (jsNewError "Could not solve the problem.")) := by
  obtain ⟨hp1, hs1⟩ := h 1 (by norm_num) (by norm_num)
  obtain ⟨hp2, hs2⟩ := h 2 (by norm_num) (by norm_num)
  obtain ⟨hp3, hs3⟩ := h 3 (by norm_num) (by norm_num)
  have ht1 : tryBody (env 1) 1 (decide (1 = MAX_ATTEMPTS)) =
      ([analyzingState 1, solvingState], TryOutcome.retryEmpty) :=
    tryBody_of_empty (env 1) 1 hp1 hs1
  have ht2 : tryBody (env 2) 2 (decide (2 = MAX_ATTEMPTS)) =
      ([analyzingState 2, solvingState], TryOutcome.retryEmpty) :=
    tryBody_of_empty (env 2) 2 hp2 hs2
  have ht3 : tryBody (env 3) 3 (decide (3 = MAX_ATTEMPTS)) =
      ([analyzingState 3, solvingState],
       TryOutcome.thrown (jsNewError "Could not solve the problem.")) :=
    tryBody_of_empty_last (env 3) 3 hp3 hs3
  have s3 : runLoop env 1 2 =
      ⟨[analyzingState 3, solvingState] ++
        [sysFailureState (jsNewError "Could not solve the problem.")], [], 3, false⟩ :=
    runLoop_step_thrown_last env 0 2 _ _ (by norm_num [MAX_ATTEMPTS]) ht3 (by decide)
      (by norm_num [MAX_ATTEMPTS])
  have s2 : runLoop env 2 1 =
      ⟨[analyzingState 2, solvingState] ++ (runLoop env 1 2).states,
       (runLoop env 1 2).pages, (runLoop env 1 2).attempts, (runLoop env 1 2).success⟩ :=
    runLoop_step_retryEmpty env 1 1 _ (by norm_num [MAX_ATTEMPTS]) ht2
  have s1 : runLoop env 3 0 =
      ⟨[analyzingState 1, solvingState] ++ (runLoop env 2 1).states,
       (runLoop env 2 1).pages, (runLoop env 2 1).attempts, (runLoop env 2 1).success⟩ :=
    runLoop_step_retryEmpty env 2 0 _ (by norm_num [MAX_ATTEMPTS]) ht1
  have key : handleProcess env =
      ⟨[analyzingState 1, solvingState] ++
        ([analyzingState 2, solvingState] ++
          ([analyzingState 3, solvingState] ++
            [sysFailureState (jsNewError "Could not solve the problem.")])), [], 3, false⟩ := by
    show runLoop env 3 0 = _
    rw [s1, s2, s3]
  rw [key]
  refine ⟨rfl, rfl, by simp [analyzingState, solvingState, sysFailureState], ?_⟩
  simp

/-- C7: for every run in which the first three stages succeed on each attempt
and Validate returns `valid = false` on attempts 1 and 2 and `valid = true` on
attempt 3, the published pages are exactly the pages rendered during
attempt 3; pages from attempts 1 and 2 never reach the published result
(each attempt accumulates into a fresh list, published only on validation
success). -/
theorem C7_pages_from_final_attempt (env : Nat → AttemptEnv)
    (steps₁ steps₂ steps₃ : List String)
    (p1 p2 p3 : List GeneratedPage) (r1 r2 r3 : List ProcessingState)
    (h1 : stageOutcomesOk (env 1) steps₁ p1 r1)
    (hv1 : (validateSolution (env 1).validate).valid = false)
    (h2 : stageOutcomesOk (env 2) steps₂ p2 r2)
    (hv2 : (validateSolution (env 2).validate).valid = false)
    (h3 : stageOutcomesOk (env 3) steps₃ p3 r3)
    (hv3 : (validateSolution (env 3).validate).valid = true) :
    (handleProcess env).pages = p3 ∧
    (handleProcess env).success = true ∧
    (handleProcess env).attempts = 3 := by
  have ht1 : tryBody (env 1) 1 (decide (1 = MAX_ATTEMPTS)) =
      (analyzingState 1 :: solvingState :: r1 ++ [validatingState],
       TryOutcome.retryInvalid) :=
    tryBody_of_invalid (env 1) 1 steps₁ p1 r1 h1 hv1
  have ht2 : tryBody (env 2) 2 (decide (2 = MAX_ATTEMPTS)) =
      (analyzingState 2 :: solvingState :: r2 ++ [validatingState],
       TryOutcome.retryInvalid) :=
    tryBody_of_invalid (env 2) 2 steps₂ p2 r2 h2 hv2
  have ht3 : tryBody (env 3) 3 (decide (3 = MAX_ATTEMPTS)) =
      (analyzingState 3 :: solvingState :: r3 ++ [validatingState, completedState],
       TryOutcome.success p3) :=
    tryBody_of_success (env 3) 3 _ steps₃ p3 r3 h3 hv3
  have s3 : runLoop env 1 2 =
      ⟨analyzingState 3 :: solvingState :: r3 ++ [validatingState, completedState],
       p3, 3, true⟩ :=
    runLoop_step_success env 0 2 _ p3 (by norm_num [MAX_ATTEMPTS]) ht3
  have s2 : runLoop env 2 1 =
      ⟨(analyzingState 2 :: solvingState :: r2 ++ [validatingState]) ++
        (runLoop env 1 2).states,
       (runLoop env 1 2).pages, (runLoop env 1 2).attempts, (runLoop env 1 2).success⟩ :=
    runLoop_step_retryInvalid env 1 1 _ (by norm_num [MAX_ATTEMPTS]) ht2
  have s1 : runLoop env 3 0 =
      ⟨(analyzingState 1 :: solvingState :: r1 ++ [validatingState]) ++
        (runLoop env 2 1).states,
       (runLoop env 2 1).pages, (runLoop env 2 1).attempts, (runLoop env 2 1).success⟩ :=
    runLoop_step_retryInvalid env 2 0 _ (by norm_num [MAX_ATTEMPTS]) ht1
  have key : handleProcess env =
      ⟨(analyzingState 1 :: solvingState :: r1 ++ [validatingState]) ++
        ((analyzingState 2 :: solvingState :: r2 ++ [validatingState]) ++
          (analyzingState 3 :: solvingState :: r3 ++ [validatingState, completedState])),
       p3, 3, true⟩ := by
    show runLoop env 3 0 = _
    rw [s1, s2, s3]
  rw [key]
  exact ⟨rfl, rfl, rfl⟩

/-- C1 (amended): when a stage of attempt 1 propagates an Access-Denied
classified error to the orchestrator — as the spec's examples Transcribe, or
Solve/RenderPage when the in-stage fallback also fails — the run aborts
immediately with the AccessDenied outcome (`ACCESS DENIED: API Key invalid.`),
consuming exactly 1 attempt, publishing no pages and never entering a second
loop iteration.  (As stated, the claim is refuted by `C1_counterexample`:
an Access-Denied failure of the Validate gateway call is swallowed by
`validateSolution`'s catch-all and the run completes instead of aborting.) -/
theorem C1_amended_access_denied_abort (env : Nat → AttemptEnv)
    (sts : List ProcessingState) (err : GwError)
    (h : tryBody (env 1) 1 false = (sts, TryOutcome.thrown err))
    (hperm : appPermissionCheck err = true) :
    handleProcess env = ⟨sts ++ [accessDeniedState], [], 1, false⟩ :=
  runLoop_step_thrown_perm env 2 0 sts err (by norm_num [MAX_ATTEMPTS]) h hperm

/-- C1 counterexample: a run in which the Validate Model Gateway call of
attempt 1 fails with an Access-Denied classified error, yet the run completes
successfully after exactly 1 attempt instead of aborting with AccessDenied:
`validateSolution`'s catch converts the failure into a bypassed-valid
verdict. -/
theorem C1_counterexample :
    isPermissionError permErr403 = true ∧
    appPermissionCheck permErr403 = true ∧
    (envC1cex 1).validate = Except.error permErr403 ∧
    (handleProcess envC1cex).success = true ∧
    (handleProcess envC1cex).attempts = 1 ∧
    (handleProcess envC1cex).states.getLast? = some completedState ∧
    (handleProcess envC1cex).states.getLast? ≠ some accessDeniedState := by decide

/-- C1 witness: a concrete run whose Transcribe call fails with 403 markers
aborts with the AccessDenied outcome after exactly 1 attempt. -/
theorem C1_witness :
    handleProcess envC1wit = ⟨[analyzingState 1] ++ [accessDeniedState], [], 1, false⟩ :=
  C1_amended_access_denied_abort envC1wit [analyzingState 1] permErr403 (by decide) (by decide)

theorem extractImage_error_not_perm (parts : List (Option String)) (e : GwError)
    (h : extractImage parts = Except.error e) : isPermissionError e = false := by
  unfold extractImage at h
  cases hf : List.findSome? id parts with
  | some d => rw [hf] at h; simp at h
  | none =>
    rw [hf] at h
    simp only [Except.error.injEq] at h
    subst h
    decide

theorem solve_fallback_iff (gwS : SolveRequest → Except GwError (Option String)) :
    (solveMathProblem gwS).2 = [solveReqPrimary, solveReqFallback] ↔
      ∃ e, gwS solveReqPrimary = Except.error e ∧ isPermissionError e = true := by
  cases hp : gwS solveReqPrimary with
  | ok t => simp [solveMathProblem, hp]
  | error e =>
    by_cases hpe : isPermissionError e = true
    · simp [solveMathProblem, hp, hpe]
    · simp only [Bool.not_eq_true] at hpe
      simp [solveMathProblem, hp, hpe]

theorem render_fallback_iff (gwR : RenderRequest → Except GwError (List (Option String))) :
    (generateHandwrittenPage gwR).2 = [renderReqPrimary, renderReqFallback] ↔
      ∃ e, gwR renderReqPrimary = Except.error e ∧ isPermissionError e = true := by
  cases hp : gwR renderReqPrimary with
  | ok parts =>
    cases hx : extractImage parts with
    | ok url => simp [generateHandwrittenPage, hp, hx]
    | error e2 =>
      have := extractImage_error_not_perm parts e2 hx
      simp [generateHandwrittenPage, hp, hx, this]
  | error e =>
    by_cases hpe : isPermissionError e = true
    · simp [generateHandwrittenPage, hp, hpe]
    · simp only [Bool.not_eq_true] at hpe
      simp [generateHandwrittenPage, hp, hpe]

theorem solve_head (gwS : SolveRequest → Except GwError (Option String)) :
    (solveMathProblem gwS).2.head? = some solveReqPrimary := by
  cases hp : gwS solveReqPrimary with
  | ok t => simp [solveMathProblem, hp]
  | error e =>
    by_cases hpe : isPermissionError e = true
    · simp [solveMathProblem, hp, hpe]
    · simp only [Bool.not_eq_true] at hpe
      simp [solveMathProblem, hp, hpe]

theorem render_head (gwR : RenderRequest → Except GwError (List (Option String))) :
    (generateHandwrittenPage gwR).2.head? = some renderReqPrimary := by
  cases hp : gwR renderReqPrimary with
  | ok parts =>
    cases hx : extractImage parts with
    | ok url => simp [generateHandwrittenPage, hp, hx]
    | error e2 =>
      have := extractImage_error_not_perm parts e2 hx
      simp [generateHandwrittenPage, hp, hx, this]
  | error e =>
    by_cases hpe : isPermissionError e = true
    · simp [generateHandwrittenPage, hp, hpe]
    · simp only [Bool.not_eq_true] at hpe
      simp [generateHandwrittenPage, hp, hpe]

/-- C2: Solve and RenderPage each issue their primary (high-capability) tier
request first; the fallback-tier request is issued — exactly once — if and
only if the primary call failed with an Access-Denied classified error, in
which case the stage returns the fallback call's outcome; any other primary
failure (including a successful call with no extractable image) propagates
unchanged with no fallback call; and the fallback parameters are reduced
(smaller thinking budget for Solve, no `imageSize: "2K"` flag for
RenderPage). -/
theorem C2_tier_fallback (gwS : SolveRequest → Except GwError (Option String))
    (gwR : RenderRequest → Except GwError (List (Option String))) :
    ((solveMathProblem gwS).2.head? = some solveReqPrimary) ∧
    ((generateHandwrittenPage gwR).2.head? = some renderReqPrimary) ∧
    ((solveMathProblem gwS).2 = [solveReqPrimary, solveReqFallback] ↔
      ∃ e, gwS solveReqPrimary = Except.error e ∧ isPermissionError e = true) ∧
    ((generateHandwrittenPage gwR).2 = [renderReqPrimary, renderReqFallback] ↔
      ∃ e, gwR renderReqPrimary = Except.error e ∧ isPermissionError e = true) ∧
    (∀ e, gwS solveReqPrimary = Except.error e → isPermissionError e = true →
      solveMathProblem gwS = (solveFallbackOutcome gwS, [solveReqPrimary, solveReqFallback])) ∧
    (∀ e, gwS solveReqPrimary = Except.error e → isPermissionError e = false →
      solveMathProblem gwS = (Except.error e, [solveReqPrimary])) ∧
    (∀ e, gwR renderReqPrimary = Except.error e → isPermissionError e = true →
      generateHandwrittenPage gwR =
        (renderFallbackOutcome gwR, [renderReqPrimary, renderReqFallback])) ∧
    (∀ e, gwR renderReqPrimary = Except.error e → isPermissionError e = false →
      generateHandwrittenPage gwR = (Except.error e, [renderReqPrimary])) ∧
    solveReqFallback.thinkingBudget < solveReqPrimary.thinkingBudget ∧
    renderReqPrimary.imageSize = some "2K" ∧
    renderReqFallback.imageSize = none := by
  refine ⟨solve_head gwS, render_head gwR, solve_fallback_iff gwS, render_fallback_iff gwR,
    ?_, ?_, ?_, ?_, by decide, by decide, by decide⟩
  · intro e hp hpe
    simp [solveMathProblem, hp, hpe]
  · intro e hp hpe
    simp [solveMathProblem, hp, hpe]
  · intro e hp hpe
    simp [generateHandwrittenPage, hp, hpe]
  · intro e hp hpe
    simp [generateHandwrittenPage, hp, hpe]

/-- C2 witness: with concrete oracles whose primary tiers are denied with a
403 error, both stages return the fallback outcome after issuing exactly the
primary and then the fallback request. -/
theorem C2_witness :
    solveMathProblem gwSolveCex =
      (solveFallbackOutcome gwSolveCex, [solveReqPrimary, solveReqFallback]) ∧
    generateHandwrittenPage gwRenderCex =
      (renderFallbackOutcome gwRenderCex, [renderReqPrimary, renderReqFallback]) :=
  ⟨(C2_tier_fallback gwSolveCex gwRenderCex).2.2.2.2.1 permErr403
     (show gwSolveCex solveReqPrimary = Except.error permErr403 by decide) (by decide),
   (C2_tier_fallback gwSolveCex gwRenderCex).2.2.2.2.2.2.1 permErr403
     (show gwRenderCex renderReqPrimary = Except.error permErr403 by decide) (by decide)⟩

/-- C4 (amended): for every Validate invocation whose raw model response text
cannot be parsed as JSON, the stage returns the verdict `valid = true` with
reason exactly `"Validation bypassed due to system error"` (capital V — the
claim's spelling `"validation bypassed due to system error"` differs in case,
see `C4_counterexample`) rather than raising. -/
theorem C4_amended_validation_bypass (t : Option String)
    (h : (jsonParse (stripCodeFences (textOr t "\x7b\x7d"))).isNone = true) :
    validateSolution (Except.ok t) =
      ⟨true, "Validation bypassed due to system error"⟩ := by
  have hn : jsonParse (stripCodeFences (textOr t "\x7b\x7d")) = none := by
    cases hj : jsonParse (stripCodeFences (textOr t "\x7b\x7d")) with
    | none => rfl
    | some j => rw [hj] at h; simp at h
  simp [validateSolution, hn]

/-- C4 counterexample: on the unparsable response `"not json"` the verdict's
reason is `"Validation bypassed due to system error"`, which is not the
claim's exact string `"validation bypassed due to system error"`. -/
theorem C4_counterexample :
    (jsonParse (stripCodeFences (textOr (some "not json") "\x7b\x7d"))).isNone = true ∧
    validateSolution (Except.ok (some "not json")) =
      ⟨true, "Validation bypassed due to system error"⟩ ∧
    validateSolution (Except.ok (some "not json")) ≠
      ⟨true, "validation bypassed due to system error"⟩ := by decide

/-- C4 witness: a concrete unparsable response yields the bypassed-valid
verdict. -/
theorem C4_witness :
    validateSolution (Except.ok (some "\x7b broken")) =
      ⟨true, "Validation bypassed due to system error"⟩ :=
  C4_amended_validation_bypass (some "\x7b broken") (by decide)

/-- C5 (amended): the List Interpreter strips fence markers and parses the
text; when parsing fails it returns the entire raw response text as a
single-element sequence (in particular `"not json"` yields `["not json"]`);
when the parsed value is not a sequence it returns the JSON serialization of
that value as a single-element sequence — not the raw text, see
`C5_counterexample`. -/
theorem C5_amended_list_interpreter :
    (∀ t, (jsonParse (stripCodeFences (textOr t "[]"))).isNone = true →
      parseSolutionResponse t = [textOr t ""]) ∧
    (∀ t j, jsonParse (stripCodeFences (textOr t "[]")) = some j → Json.isArr j = false →
      parseSolutionResponse t = [jsonStringify j]) ∧
    parseSolutionResponse (some "not json") = ["not json"] := by
  refine ⟨?_, ?_, by decide⟩
  · intro t h
    have hn : jsonParse (stripCodeFences (textOr t "[]")) = none := by
      cases hj : jsonParse (stripCodeFences (textOr t "[]")) with
      | none => rfl
      | some j => rw [hj] at h; simp at h
    simp [parseSolutionResponse, hn]
  · intro t j hj hna
    unfold parseSolutionResponse
    rw [hj]
    cases j with
    | arr es => simp [Json.isArr] at hna
    | null => rfl
    | bool b => rfl
    | num lexeme => rfl
    | str s => rfl
    | obj fields => rfl

/-- C5 counterexample: the response `"{ }"` parses to a non-array value, and
the interpreter returns `["{}"]` — the serialization of the parsed value —
not the raw response text `["{ }"]` the claim promises. -/
theorem C5_counterexample :
    parseSolutionResponse (some "\x7b \x7d") = ["\x7b\x7d"] ∧
    (jsonParse (stripCodeFences (textOr (some "\x7b \x7d") "[]"))).map Json.isArr =
      some false ∧
    parseSolutionResponse (some "\x7b \x7d") ≠ ["\x7b \x7d"] := by decide

/-- C5 witness: the non-array response `"5"` becomes the single-element
sequence holding its serialization. -/
theorem C5_witness : parseSolutionResponse (some "5") = ["5"] :=
  C5_amended_list_interpreter.2.1 (some "5") (Json.num "5") rfl rfl

/-- C10: every Transcribe call whose gateway response succeeds but carries no
text (absent or empty `text` field) returns the non-empty placeholder
`"Could not read problem."`; more generally a successful response always
yields a successful, non-empty transcription, so a textless response can never
make the stage fail. -/
theorem C10_transcribe_placeholder :
    (∀ t, t = none ∨ t = some "" →
      transcribeMathProblem (Except.ok t) = Except.ok "Could not read problem.") ∧
    (∀ t, ∃ s, transcribeMathProblem (Except.ok t) = Except.ok s ∧ s ≠ "") := by
  constructor
  · rintro t (rfl | rfl) <;> rfl
  · intro t
    refine ⟨textOr t "Could not read problem.", rfl, ?_⟩
    cases t with
    | none => simp [textOr]
    | some s =>
      simp only [textOr, strOr]
      by_cases h : s = ""
      · simp [h]
      · simp [h]

/-- C10 witness: a successful response with an absent text field transcribes
to the placeholder. -/
theorem C10_witness :
    transcribeMathProblem (Except.ok none) = Except.ok "Could not read problem." :=
  C10_transcribe_placeholder.1 none (Or.inl rfl)

/-- C3 witness: a concrete one-attempt run with a two-page solution publishes
two pages numbered 1, 2. -/
theorem C3_witness :
    (handleProcess (fun _ => envOkW)).success = true ∧
    (handleProcess (fun _ => envOkW)).attempts = 1 ∧
    (handleProcess (fun _ => envOkW)).pages.length = 2 ∧
    (handleProcess (fun _ => envOkW)).pages.map (fun p => p.pageNumber) = List.range' 1 2 :=
  C3_success_pages_numbering (fun _ => envOkW) ["a", "b"] pagesW
    (renderPages envOkW 2 (List.range 2)).1
    ⟨⟨"1+1", show transcribeMathProblem envOkW.transcribe = Except.ok "1+1" by decide⟩,
      show (solveMathProblem (solveGw envOkW)).1 = Except.ok ["a", "b"] by decide,
      by decide,
      congrArg (Prod.mk (renderPages envOkW 2 (List.range 2)).1)
        (show (renderPages envOkW 2 (List.range 2)).2 = Except.ok pagesW by decide)⟩
    (show (validateSolution envOkW.validate).valid = true by decide)

/-- C6 witness: a concrete run whose Solve stage always parses to the empty
page list exhausts all three attempts and ends in the Error step with the
Unsolvable message. -/
theorem C6_witness :
    (handleProcess (fun _ => envEmptyW)).success = false ∧
    (handleProcess (fun _ => envEmptyW)).attempts = 3 ∧
    (handleProcess (fun _ => envEmptyW)).states.map (fun s => s.step) =
      [ProcessingStep.ANALYZING, ProcessingStep.SOLVING,
       ProcessingStep.ANALYZING, ProcessingStep.SOLVING,
       ProcessingStep.ANALYZING, ProcessingStep.SOLVING, ProcessingStep.ERROR] ∧
    (handleProcess (fun _ => envEmptyW)).states.getLast? =
      some (sysFailureState (jsNewError "Could not solve the problem.")) :=
  C6_empty_solution_exhaustion (fun _ => envEmptyW)
    (fun _ _ _ =>
      ⟨⟨"1+1", show transcribeMathProblem envEmptyW.transcribe = Except.ok "1+1" by decide⟩,
       show (solveMathProblem (solveGw envEmptyW)).1 = Except.ok [] by decide⟩)

/-- C7 witness: a concrete run failing validation on attempts 1 and 2 and
passing on attempt 3 publishes exactly the pages rendered on attempt 3. -/
theorem C7_witness :
    (handleProcess envC7run).pages = pagesThird ∧
    (handleProcess envC7run).success = true ∧
    (handleProcess envC7run).attempts = 3 :=
  C7_pages_from_final_attempt envC7run ["a", "b"] ["a", "b"] ["a", "b"]
    pagesW pagesW pagesThird
    (renderPages (envC7run 1) 2 (List.range 2)).1
    (renderPages (envC7run 2) 2 (List.range 2)).1
    (renderPages (envC7run 3) 2 (List.range 2)).1
    ⟨⟨"1+1", by decide⟩, by decide, by decide,
      congrArg (Prod.mk (renderPages (envC7run 1) 2 (List.range 2)).1)
        (show (renderPages (envC7run 1) 2 (List.range 2)).2 = Except.ok pagesW by decide)⟩
    (by decide)
    ⟨⟨"1+1", by decide⟩, by decide, by decide,
      congrArg (Prod.mk (renderPages (envC7run 2) 2 (List.range 2)).1)
        (show (renderPages (envC7run 2) 2 (List.range 2)).2 = Except.ok pagesW by decide)⟩
    (by decide)
    ⟨⟨"1+1", by decide⟩, by decide, by decide,
      congrArg (Prod.mk (renderPages (envC7run 3) 2 (List.range 2)).1)
        (show (renderPages (envC7run 3) 2 (List.range 2)).2 = Except.ok pagesThird by decide)⟩
    (by decide)

/-- C8 witness: the state writes of a concrete successful attempt start at
progress 10 and are non-decreasing throughout. -/
theorem C8_witness :
    ((tryBody envOkW 1 false).1.map (fun s => s.progress)).head? = some 10 ∧
    ((tryBody envOkW 1 false).1.map (fun s => s.progress)).Pairwise (· ≤ ·) :=
  ⟨(C8_progress_monotone envOkW 1 false (tryBody envOkW 1 false).1
      (tryBody envOkW 1 false).2 rfl).1,
   (C8_progress_monotone envOkW 1 false (tryBody envOkW 1 false).1
      (tryBody envOkW 1 false).2 rfl).2 pagesW
     (show (tryBody envOkW 1 false).2 = TryOutcome.success pagesW by decide)⟩

/-- C9 witness: a concrete four-page generation loop writes exactly the
progress values 40, 50, 60, 70. -/
theorem C9_witness :
    (renderPages envOkW 4 (List.range 4)).1.map (fun s => s.progress) = [40, 50, 60, 70] :=
  C9_progress_values_four_pages envOkW (renderPages envOkW 4 (List.range 4)).1
    [⟨"data:image/png;base64,P", 1⟩, ⟨"data:image/png;base64,P", 2⟩,
     ⟨"data:image/png;base64,P", 3⟩, ⟨"data:image/png;base64,P", 4⟩]
    (congrArg (Prod.mk (renderPages envOkW 4 (List.range 4)).1)
      (show (renderPages envOkW 4 (List.range 4)).2 = Except.ok
        [⟨"data:image/png;base64,P", 1⟩, ⟨"data:image/png;base64,P", 2⟩,
         ⟨"data:image/png;base64,P", 3⟩, ⟨"data:image/png;base64,P", 4⟩] by decide))
